import Mathlib

/-!
Verification of the `appletv-node` client library (`src/lib/appletv.ts` and its
compiled copy `dist/lib/appletv.js`) against its natural-language specification.

The embedding models:
* the `AppleTV.Key` enum and the string-to-key lookup `AppleTV.key`;
* `sendKeyCommand` / `sendKeyPressAndRelease` / `sendKeyPress` as the sequence
  of HID actions they produce, with `hidEventData` as a list of byte values;
* the `DeviceInfoMessage` body built by `sendIntroduction` (both the TypeScript
  copy and the compiled `dist` copy, which differ);
* `requestPlaybackQueueWithWait`'s mutation of the caller's options object;
* the constructor's address selection, its `SetStateMessage` fan-out handler,
  and its `newListener` / `removeListener` polling-timer hooks as a state
  machine over listener events;
* `messageOfType` as a state machine over an interleaving of message arrivals
  and the timeout-timer firing.

Buffers are lists of byte values (`List Nat`, each element < 256).
-/

namespace AppleTVNode

/-- Value of one lowercase hexadecimal digit, as used by `Buffer.from(s, 'hex')`
on the literals appearing in `sendKeyPress` (all lowercase). -/
def hexDigitVal (c : Char) : Nat :=
  if '0' ≤ c ∧ c ≤ '9' then c.toNat - 48
  else if 'a' ≤ c ∧ c ≤ 'f' then c.toNat - 87
  else 0

/-- Decode pairs of hex digits into bytes; a trailing unpaired digit is
dropped, as `Buffer.from(_, 'hex')` stops at incomplete pairs. -/
def bytesFromHexChars : List Char → List Nat
  | c1 :: c2 :: rest => (hexDigitVal c1 * 16 + hexDigitVal c2) :: bytesFromHexChars rest
  | _ => []

/-- `Buffer.from(s, 'hex')` on a hex string literal. -/
def bufferFromHex (s : String) : List Nat :=
  bytesFromHexChars s.toList

/-- Modelled from the spec: `src/lib/util/number.ts` is not part of the
available source; only its call sites in `sendKeyPress` are. The spec states
that the `(usagePage, usageId, down)` triple is encoded as three little-endian
`uint16`s (verified against live captures), so despite its `BE` name the
encoder is modelled as a two-byte little-endian write. -/
def UInt16toBufferBE (value : Nat) : List Nat :=
  [value % 256, value / 256 % 256]

/-- The `AppleTV.Key` enum from `src/lib/appletv.ts`. -/
inductive Key
  | Up
  | Down
  | Left
  | Right
  | Menu
  | Play
  | Pause
  | Next
  | Previous
  | Suspend
  | Select
  | Topmenu
  | WakeUp
  | VolumeUp
  | VolumeDown
  | Home
  | HomeHold
  deriving DecidableEq, Fintype, Repr

/-- The string-to-key parser `AppleTV.key`.  The TypeScript `switch` has no
`default` branch, so an unmatched string yields `undefined`, modelled as
`none`.  Note the `switch` has no case for `'next'`. -/
def key (k : String) : Option Key :=
  if k = "up" then some Key.Up
  else if k = "down" then some Key.Down
  else if k = "left" then some Key.Left
  else if k = "right" then some Key.Right
  else if k = "menu" then some Key.Menu
  else if k = "play" then some Key.Play
  else if k = "pause" then some Key.Pause
  else if k = "previous" then some Key.Previous
  else if k = "suspend" then some Key.Suspend
  else if k = "select" then some Key.Select
  else if k = "topmenu" then some Key.Topmenu
  else if k = "wakeup" then some Key.WakeUp
  else if k = "volumeup" then some Key.VolumeUp
  else if k = "volumedown" then some Key.VolumeDown
  else if k = "home" then some Key.Home
  else if k = "homehold" then some Key.HomeHold
  else none

/-- The `hidEventData` buffer built by `sendKeyPress(usePage, usage, down)`:
an 8-byte timestamp stub, a constant scaffold decoded from the concatenated
hex literal in the source, the six bytes of the encoded triple, and an
11-byte constant tail. -/
def sendKeyPressHidEventData (usePage usage : Nat) (down : Bool) : List Nat :=
  let time := bufferFromHex "438922cf08020000"
  let data := UInt16toBufferBE usePage ++ UInt16toBufferBE usage ++
    (if down then UInt16toBufferBE 1 else UInt16toBufferBE 0)
  time ++
    bufferFromHex ("00000000000000000100000000000000020" ++ "00000200000000300000001000000000000") ++
    data ++
    bufferFromHex "0000000000000001000000"

/-- One observable action of `sendKeyCommand`: sending a single
`SendHIDEventMessage` frame (recorded by its triple), or the `delay(1000)`
inserted when `hold` is set. -/
inductive HidAction
  | press (usePage usage : Nat) (down : Bool)
  | delayMs (n : Nat)
  deriving DecidableEq, Repr

/-- The sequence of actions of `sendKeyPressAndRelease(usePage, usage, hold)`:
a `down=true` frame, the one-second delay when `hold`, then a `down=false`
frame. -/
def sendKeyPressAndRelease (usePage usage : Nat) (hold : Bool) : List HidAction :=
  [HidAction.press usePage usage true] ++
    (if hold then [HidAction.delayMs 1000] else []) ++
    [HidAction.press usePage usage false]

/-- The `switch` of `sendKeyCommand`, as the sequence of HID actions it
produces.  Only `HomeHold` passes `hold = true`. -/
def sendKeyCommand : Key → List HidAction
  | Key.Up => sendKeyPressAndRelease 1 0x8C false
  | Key.Down => sendKeyPressAndRelease 1 0x8D false
  | Key.Left => sendKeyPressAndRelease 1 0x8B false
  | Key.Right => sendKeyPressAndRelease 1 0x8A false
  | Key.Menu => sendKeyPressAndRelease 1 0x86 false
  | Key.Play => sendKeyPressAndRelease 12 0xB0 false
  | Key.Pause => sendKeyPressAndRelease 12 0xB1 false
  | Key.Next => sendKeyPressAndRelease 12 0xB5 false
  | Key.Previous => sendKeyPressAndRelease 12 0xB6 false
  | Key.Suspend => sendKeyPressAndRelease 1 0x82 false
  | Key.Select => sendKeyPressAndRelease 1 0x89 false
  | Key.Topmenu => sendKeyPressAndRelease 12 0x60 false
  | Key.WakeUp => sendKeyPressAndRelease 1 0x83 false
  | Key.VolumeUp => sendKeyPressAndRelease 12 0xE9 false
  | Key.VolumeDown => sendKeyPressAndRelease 12 0xEA false
  | Key.Home => sendKeyPressAndRelease 12 0x40 false
  | Key.HomeHold => sendKeyPressAndRelease 12 0x40 true

/-- The `(usagePage, usageId)` table as the specification states it; to be
compared with the trace of `sendKeyCommand` taken from the source. -/
def specKeyTable : Key → Nat × Nat
  | Key.Up => (1, 0x8C)
  | Key.Down => (1, 0x8D)
  | Key.Left => (1, 0x8B)
  | Key.Right => (1, 0x8A)
  | Key.Menu => (1, 0x86)
  | Key.Select => (1, 0x89)
  | Key.Suspend => (1, 0x82)
  | Key.WakeUp => (1, 0x83)
  | Key.Play => (12, 0xB0)
  | Key.Pause => (12, 0xB1)
  | Key.Next => (12, 0xB5)
  | Key.Previous => (12, 0xB6)
  | Key.Topmenu => (12, 0x60)
  | Key.Home => (12, 0x40)
  | Key.HomeHold => (12, 0x40)
  | Key.VolumeUp => (12, 0xE9)
  | Key.VolumeDown => (12, 0xEA)

example : bufferFromHex "438922cf08020000" = [0x43, 0x89, 0x22, 0xCF, 0x08, 0x02, 0x00, 0x00] := by decide

example : (sendKeyPressHidEventData 1 0x86 true).length = 60 := by decide

/-- The `DeviceInfoMessage` body.  Fields present in only one of the two
copies of `sendIntroduction` (TypeScript vs compiled `dist`) are `Option`s,
with `none` meaning the field is absent from the object literal. -/
structure DeviceInfoBody where
  uniqueIdentifier : String
  name : String
  localizedModelName : String
  systemBuildVersion : String
  applicationBundleIdentifier : String
  applicationBundleVersion : String
  protocolVersion : Nat
  allowsPairing : Bool
  lastSupportedMessageType : Nat
  supportsSystemPairing : Bool
  supportsSharedQueue : Option Bool
  supportsACL : Option Bool
  supportsExtendedMotion : Option Bool
  sharedQueueVersion : Option Nat
  deviceClass : Option Nat
  logicalDeviceCount : Nat
  deriving DecidableEq, Repr

/-- The body built by `sendIntroduction` in `src/lib/appletv.ts`, as a
function of the device's `pairingId`. -/
def sendIntroductionBody (pairingId : String) : DeviceInfoBody :=
  { uniqueIdentifier := pairingId
    name := "appletv-node"
    localizedModelName := "iPhone"
    systemBuildVersion := "17B111"
    applicationBundleIdentifier := "com.apple.TVRemote"
    applicationBundleVersion := "344.28"
    protocolVersion := 1
    allowsPairing := true
    lastSupportedMessageType := 77
    supportsSystemPairing := true
    supportsSharedQueue := some true
    supportsACL := some true
    supportsExtendedMotion := some true
    sharedQueueVersion := some 2
    deviceClass := some 1
    logicalDeviceCount := 1 }

/-- The body built by `sendIntroduction` in the compiled copy
`dist/lib/appletv.js`, whose object literal stops after
`supportsSystemPairing` and `logicalDeviceCount`. -/
def sendIntroductionBodyDist (pairingId : String) : DeviceInfoBody :=
  { uniqueIdentifier := pairingId
    name := "appletv-node"
    localizedModelName := "iPhone"
    systemBuildVersion := "17B111"
    applicationBundleIdentifier := "com.apple.TVRemote"
    applicationBundleVersion := "344.28"
    protocolVersion := 1
    allowsPairing := true
    lastSupportedMessageType := 77
    supportsSystemPairing := true
    supportsSharedQueue := none
    supportsACL := none
    supportsExtendedMotion := none
    sharedQueueVersion := none
    deviceClass := none
    logicalDeviceCount := 1 }

/-- The `Size` interface. -/
structure Size where
  width : Int
  height : Int
  deriving DecidableEq, Repr

/-- The `PlaybackQueueRequestOptions` object, together with the properties
`requestPlaybackQueueWithWait` adds to it in place (`requestID`,
`artworkWidth`, `artworkHeight`).  `none` models an absent property. -/
structure PlaybackQueueRequestOptions where
  location : Int
  length : Int
  includeMetadata : Option Bool
  includeLanguageOptions : Option Bool
  includeLyrics : Option Bool
  artworkSize : Option Size
  requestID : Option String
  artworkWidth : Option Int
  artworkHeight : Option Int
  deriving DecidableEq, Repr

/-- The state of the caller's options object after
`requestPlaybackQueueWithWait(options, _)` ran with `uuid()` returning `u`.
In the source `params` is the very same object as `options`, so this is the
object the caller passed in. -/
def requestPlaybackQueueWithWaitParams
    (options : PlaybackQueueRequestOptions) (u : String) : PlaybackQueueRequestOptions :=
  let params := { options with requestID := some u }
  match options.artworkSize with
  | some sz =>
    { params with
        artworkWidth := some sz.width
        artworkHeight := some sz.height
        artworkSize := none }
  | none => params

/-- The options literal the polling timer passes to
`requestPlaybackQueueWithWait`. -/
def pollRequestOptions : PlaybackQueueRequestOptions :=
  { location := 0
    length := 100
    includeMetadata := none
    includeLanguageOptions := none
    includeLyrics := none
    artworkSize := some { width := -1, height := 368 }
    requestID := none
    artworkWidth := none
    artworkHeight := none }

/-- The interval period, in milliseconds, of the polling timer
(`setInterval(..., 5000)`). -/
def pollIntervalMs : Nat := 5000

/-- One tick of the polling timer with `uuid()` returning `u`: when the
connection is open it sends a `PlaybackQueueRequestMessage` with the mutated
poll options and `waitForResponse = false`; otherwise nothing is sent. -/
def pollTick (isOpen : Bool) (u : String) : Option (PlaybackQueueRequestOptions × Bool) :=
  if isOpen then some (requestPlaybackQueueWithWaitParams pollRequestOptions u, false) else none

/-- The constructor state relevant to the polling timer: whether the
`queuePollTimer` interval is running (the variable is non-null), and the
listener counts for the `nowPlaying` and `supportedCommands` events. -/
structure PollState where
  queuePollTimer : Bool
  nowPlayingCount : Nat
  supportedCommandsCount : Nat
  deriving DecidableEq, Repr

/-- `listenerCount('nowPlaying') + listenerCount('supportedCommands')`. -/
def combinedListenerCount (s : PollState) : Nat :=
  s.nowPlayingCount + s.supportedCommandsCount

/-- A listener registration or removal on the emitter, by event name. -/
inductive ListenerAction
  | add (event : String)
  | remove (event : String)
  deriving DecidableEq, Repr

/-- The constructor's `newListener` and `removeListener` hooks.  Node emits
`newListener` before the listener is added (so the hook sees the counts
before the increment) and `removeListener` after it is removed (so the hook
sees the counts after the decrement). -/
def pollHooksStep (s : PollState) : ListenerAction → PollState
  | ListenerAction.add event =>
    let s1 :=
      if s.queuePollTimer = false ∧ (event = "nowPlaying" ∨ event = "supportedCommands") then
        { s with queuePollTimer := true }
      else s
    if event = "nowPlaying" then { s1 with nowPlayingCount := s1.nowPlayingCount + 1 }
    else if event = "supportedCommands" then
      { s1 with supportedCommandsCount := s1.supportedCommandsCount + 1 }
    else s1
  | ListenerAction.remove event =>
    let s1 :=
      if event = "nowPlaying" then { s with nowPlayingCount := s.nowPlayingCount - 1 }
      else if event = "supportedCommands" then
        { s with supportedCommandsCount := s.supportedCommandsCount - 1 }
      else s
    if s1.queuePollTimer = true ∧ (event = "nowPlaying" ∨ event = "supportedCommands") ∧
        combinedListenerCount s1 = 0 then
      { s1 with queuePollTimer := false }
    else s1

/-- State at construction: no timer, no listeners. -/
def pollInitState : PollState :=
  { queuePollTimer := false, nowPlayingCount := 0, supportedCommandsCount := 0 }

/-- Run a sequence of listener actions from the initial state. -/
def pollRun (actions : List ListenerAction) : PollState :=
  actions.foldl pollHooksStep pollInitState

/-- Modelled from the spec: `src/lib/message.ts` is not part of the available
source (only `Message.Type` comparisons at its call sites are).  Message
types the client dispatches on, per the spec's protocol-schema enum
(`DEVICE_INFO_MESSAGE=15`, `CRYPTO_PAIRING_MESSAGE=20`,
`SET_STATE_MESSAGE=42`, plus the messages this facade sends). -/
inductive MessageType
  | DeviceInfoMessage
  | CryptoPairingMessage
  | SetStateMessage
  | SendHIDEventMessage
  | PlaybackQueueRequestMessage
  | SetConnectionStateMessage
  | ClientUpdatesConfigMessage
  deriving DecidableEq, Repr

/-- One `{command, enabled, canScrub}` entry of the inbound
`supportedCommands.supportedCommands` list; `enabled` and `canScrub` may be
absent (`sc.enabled || false`). -/
structure SupportedCommandEntry where
  command : String
  enabled : Option Bool
  canScrub : Option Bool
  deriving DecidableEq, Repr

/-- The `SupportedCommand` value object constructed by the handler. -/
structure SupportedCommand where
  command : String
  enabled : Bool
  canScrub : Bool
  deriving DecidableEq, Repr

/-- The `supportedCommands` sub-field of a `SetStateMessage` payload, whose
inner list may itself be absent. -/
structure SupportedCommandsField where
  supportedCommands : Option (List SupportedCommandEntry)
  deriving DecidableEq, Repr

/-- A `SetStateMessage` payload with the three sub-fields the handler
inspects; each may be absent.  The playback queue is opaque to the handler
and modelled as an uninterpreted string. -/
structure SetStatePayload where
  nowPlayingInfo : Option String
  supportedCommands : Option SupportedCommandsField
  playbackQueue : Option String
  deriving DecidableEq, Repr

/-- A decoded inbound message: its type and, for `SetStateMessage`, its
payload (`none` models a null payload). -/
structure Msg where
  type : MessageType
  payload : Option SetStatePayload
  deriving DecidableEq, Repr

/-- The `NowPlayingInfo` value object, constructed from the whole payload
(`new NowPlayingInfo(message.payload)`). -/
structure NowPlayingInfo where
  payload : SetStatePayload
  deriving DecidableEq, Repr

/-- An event emitted by the `AppleTV` emitter in response to an inbound
message. -/
inductive DeviceEvent
  | message (m : Msg)
  | nowPlaying (info : Option NowPlayingInfo)
  | supportedCommands (commands : List SupportedCommand)
  | playbackQueue (queue : String)
  deriving DecidableEq, Repr

/-- Whether an event is a `nowPlaying` emission. -/
def DeviceEvent.isNowPlaying : DeviceEvent → Bool
  | DeviceEvent.nowPlaying _ => true
  | _ => false

/-- Whether an event is a `supportedCommands` emission. -/
def DeviceEvent.isSupportedCommands : DeviceEvent → Bool
  | DeviceEvent.supportedCommands _ => true
  | _ => false

/-- Whether an event is a `playbackQueue` emission. -/
def DeviceEvent.isPlaybackQueue : DeviceEvent → Bool
  | DeviceEvent.playbackQueue _ => true
  | _ => false

/-- The connection `message` handler installed by the constructor, as the
list of events it emits in order: a `message` event always; then, for a
`SetStateMessage`, either a single `nowPlaying(null)` when the payload is
null (early return), or one event per populated sub-field. -/
def handleMessage (m : Msg) : List DeviceEvent :=
  DeviceEvent.message m ::
    (if m.type = MessageType.SetStateMessage then
      match m.payload with
      | none => [DeviceEvent.nowPlaying none]
      | some payload =>
        (if payload.nowPlayingInfo.isSome then
          [DeviceEvent.nowPlaying (some { payload := payload })]
        else []) ++
        (match payload.supportedCommands with
         | some field =>
           [DeviceEvent.supportedCommands ((field.supportedCommands.getD []).map
             (fun sc => { command := sc.command, enabled := sc.enabled.getD false,
                          canScrub := sc.canScrub.getD false }))]
         | none => []) ++
        (match payload.playbackQueue with
         | some queue => [DeviceEvent.playbackQueue queue]
         | none => [])
    else [])

/-- The default `timeout` parameter of `messageOfType`, in seconds. -/
def messageOfTypeDefaultTimeout : Nat := 5

/-- The `setTimeout` delay of `messageOfType`, in milliseconds:
`timeout * 1000`. -/
def messageOfTypeTimerMs (timeout : Nat) : Nat := timeout * 1000

/-- The rejection message of `messageOfType`'s timer. -/
def timedOutMessage : String := "Timed out waiting for message type "

/-- One occurrence inside a `messageOfType` wait: either an inbound
`message` event, or the timeout timer firing. -/
inductive WaiterEvent
  | arrival (m : Msg)
  | timerFire
  deriving DecidableEq, Repr

/-- The state of one `messageOfType` promise: whether its `message` listener
is still registered, and the settled outcome if any (`Except.error` for a
rejection, `Except.ok` for a resolution). -/
structure WaiterState where
  listening : Bool
  outcome : Option (Except String Msg)
  deriving Repr

/-- One step of the `messageOfType` wait.  The listener resolves on the first
type match and removes itself; the timer (never cleared) rejects if the
promise is not yet settled and removes the listener.  A settled promise
ignores later settlement attempts. -/
def messageOfTypeStep (type : MessageType) (s : WaiterState) : WaiterEvent → WaiterState
  | WaiterEvent.arrival m =>
    if s.listening ∧ m.type = type then
      { listening := false, outcome := some (s.outcome.getD (Except.ok m)) }
    else s
  | WaiterEvent.timerFire =>
    { listening := false,
      outcome := some (s.outcome.getD (Except.error timedOutMessage)) }

/-- Run a `messageOfType type` wait over a time-ordered interleaving of
arrivals and the timer firing, from the freshly-registered state. -/
def messageOfTypeRun (type : MessageType) (events : List WaiterEvent) : WaiterState :=
  events.foldl (messageOfTypeStep type) { listening := true, outcome := none }

/-- The mdns service record fields the constructor reads. -/
structure ServiceRecord where
  addresses : List String
  port : Nat
  txtName : String
  txtUniqueIdentifier : String
  deriving DecidableEq, Repr

/-- The fields the `AppleTV` constructor derives from the service record. -/
structure AppleTVFields where
  name : String
  address : Option String
  port : Nat
  uid : String
  deriving DecidableEq, Repr

/-- The `AppleTV` constructor's field initialisation: the address is
`addresses[1]` when more than one address is present, else `addresses[0]`
(JavaScript indexing, `undefined` = `none` when out of range). -/
def appleTVInit (service : ServiceRecord) : AppleTVFields :=
  { name := service.txtName
    address :=
      if service.addresses.length > 1 then service.addresses.get? 1
      else service.addresses.get? 0
    port := service.port
    uid := service.txtUniqueIdentifier }

/-! ## Helper lemmas -/

/-- Splitting the `hidEventData` buffer after the 43 constant bytes
(timestamp stub plus scaffold): what follows is the encoded triple and the
constant tail. -/
theorem sendKeyPressHidEventData_split (usePage usage : Nat) (down : Bool) :
    sendKeyPressHidEventData usePage usage down =
      (bufferFromHex "438922cf08020000" ++
        bufferFromHex ("00000000000000000100000000000000020" ++ "00000200000000300000001000000000000")) ++
      ((UInt16toBufferBE usePage ++ UInt16toBufferBE usage ++
        (if down then UInt16toBufferBE 1 else UInt16toBufferBE 0)) ++
        bufferFromHex "0000000000000001000000") := by
  unfold sendKeyPressHidEventData
  simp [List.append_assoc]

/-- The 43 constant leading bytes of `hidEventData`. -/
theorem sendKeyPressHidEventData_prefix_length :
    (bufferFromHex "438922cf08020000" ++
      bufferFromHex ("00000000000000000100000000000000020" ++ "00000200000000300000001000000000000")).length = 43 := by
  decide

/-! ## Claim theorems -/

/-- C1 (counterexample): the claim's concrete numbers are false of the code.
For `Key.Menu`'s press frame (`sendKeyPress(1, 0x86, true)`) the
`hidEventData` buffer is not 44 bytes long (it is 60: the concatenated hex
scaffold decodes to 35 bytes, not the claimed 22), and the bytes at offsets
30–35 are scaffold constants, not `01 00 86 00 01 00`; likewise for the
release frame. -/
theorem C1_counterexample :
    (sendKeyPressHidEventData 1 0x86 true).length ≠ 44 ∧
    ((sendKeyPressHidEventData 1 0x86 true).drop 30).take 6 ≠ [0x01, 0x00, 0x86, 0x00, 0x01, 0x00] ∧
    ((sendKeyPressHidEventData 1 0x86 false).drop 30).take 6 ≠ [0x01, 0x00, 0x86, 0x00, 0x00, 0x00] := by
  decide

/-- C1 (amended): for every call to `sendKeyPress(usagePage, usageId, down)`,
the `hidEventData` buffer is a fixed 60-byte blob that begins with the 8-byte
timestamp stub `43 89 22 CF 08 02 00 00` and carries the
`(usagePage, usageId, down)` triple as three little-endian `uint16`s (the
encoder is spec-modelled, `util/number` being outside the available source)
spliced at byte offsets [43..49); in particular for `Key.Menu` the bytes at
offsets 43–48 equal `01 00 86 00 01 00` for the press frame and
`01 00 86 00 00 00` for the release frame. -/
theorem C1_hidEventData (usePage usage : Nat) (down : Bool) :
    (sendKeyPressHidEventData usePage usage down).length = 60 ∧
    (sendKeyPressHidEventData usePage usage down).take 8 =
      [0x43, 0x89, 0x22, 0xCF, 0x08, 0x02, 0x00, 0x00] ∧
    ((sendKeyPressHidEventData usePage usage down).drop 43).take 6 =
      UInt16toBufferBE usePage ++ UInt16toBufferBE usage ++
        (if down then UInt16toBufferBE 1 else UInt16toBufferBE 0) ∧
    ((sendKeyPressHidEventData 1 0x86 true).drop 43).take 6 =
      [0x01, 0x00, 0x86, 0x00, 0x01, 0x00] ∧
    ((sendKeyPressHidEventData 1 0x86 false).drop 43).take 6 =
      [0x01, 0x00, 0x86, 0x00, 0x00, 0x00] := by
  refine ⟨?_, ?_, ?_, by decide, by decide⟩
  · rw [sendKeyPressHidEventData_split]
    cases down <;> simp [List.length_append, UInt16toBufferBE] <;> decide
  · rw [sendKeyPressHidEventData_split]
    rw [List.take_append_of_le_length (by rw [sendKeyPressHidEventData_prefix_length]; omega)]
    decide
  · rw [sendKeyPressHidEventData_split, ← sendKeyPressHidEventData_prefix_length,
      List.drop_left]
    cases down <;>
      simp [UInt16toBufferBE, List.take_append_of_le_length, bufferFromHex]

/-- C2 (counterexample): the two copies of the introduction in the source do
not agree.  At the concrete pairingId `"p"`, the body built by the compiled
`dist` copy differs from the TypeScript body: it omits `supportsSharedQueue`
and `supportsACL` (among others). -/
theorem C2_counterexample :
    sendIntroductionBodyDist "p" ≠ sendIntroductionBody "p" ∧
    (sendIntroductionBodyDist "p").supportsACL = none ∧
    (sendIntroductionBodyDist "p").supportsSharedQueue = none := by
  refine ⟨?_, rfl, rfl⟩
  intro h
  exact Option.noConfusion (congrArg DeviceInfoBody.supportsACL h)

/-- C2 (amended): the introduction `DeviceInfoMessage` built by the
TypeScript `sendIntroduction` carries `uniqueIdentifier` equal to the
device's `pairingId`, `localizedModelName "iPhone"`, `protocolVersion 1`,
and `supportsSystemPairing = supportsSharedQueue = supportsACL = true`, and —
being a constant function of the `pairingId` — the same field set on every
invocation.  The compiled `dist` copy agrees on `uniqueIdentifier`,
`localizedModelName`, `protocolVersion` and `supportsSystemPairing` but omits
`supportsSharedQueue` and `supportsACL`, so the two copies of the
introduction in the source do not agree; the spec treats the richer
TypeScript set as canonical. -/
theorem C2_sendIntroduction (pairingId : String) :
    (sendIntroductionBody pairingId).uniqueIdentifier = pairingId ∧
    (sendIntroductionBody pairingId).localizedModelName = "iPhone" ∧
    (sendIntroductionBody pairingId).protocolVersion = 1 ∧
    (sendIntroductionBody pairingId).supportsSystemPairing = true ∧
    (sendIntroductionBody pairingId).supportsSharedQueue = some true ∧
    (sendIntroductionBody pairingId).supportsACL = some true ∧
    (sendIntroductionBodyDist pairingId).uniqueIdentifier = pairingId ∧
    (sendIntroductionBodyDist pairingId).localizedModelName = "iPhone" ∧
    (sendIntroductionBodyDist pairingId).protocolVersion = 1 ∧
    (sendIntroductionBodyDist pairingId).supportsSystemPairing = true ∧
    (sendIntroductionBodyDist pairingId).supportsSharedQueue = none ∧
    (sendIntroductionBodyDist pairingId).supportsACL = none := by
  simp [sendIntroductionBody, sendIntroductionBodyDist]

/-- Whether a `sendKeyCommand` action is the sending of one
`SendHIDEventMessage` frame. -/
def HidAction.isPress : HidAction → Bool
  | HidAction.press _ _ _ => true
  | _ => false

/-- C3: for every key `k` of the `Key` enum, `sendKeyCommand(k)` sends
exactly two `SendHIDEventMessage` frames whose `(usagePage, usageId)` pair is
given by the specification's table (`specKeyTable`), the first with
`down = 1` and the second with `down = 0`, and only for `HomeHold` is the
one-second delay inserted between the two frames. -/
theorem C3_sendKeyCommand :
    ∀ k : Key,
      sendKeyCommand k =
        [HidAction.press (specKeyTable k).1 (specKeyTable k).2 true] ++
          (if k = Key.HomeHold then [HidAction.delayMs 1000] else []) ++
          [HidAction.press (specKeyTable k).1 (specKeyTable k).2 false] ∧
      (sendKeyCommand k).countP HidAction.isPress = 2 := by
  decide

/-- The sixteen key names the `AppleTV.key` switch recognizes. -/
def recognizedKeyNames : List String :=
  ["up", "down", "left", "right", "menu", "play", "pause", "previous",
   "suspend", "select", "topmenu", "wakeup", "volumeup", "volumedown",
   "home", "homehold"]

/-- C7 (counterexample): an unknown key name does not surface a `UsageError`;
`AppleTV.key` falls off the end of its `switch` and silently returns
`undefined` (`none`).  No error value or exception exists anywhere in the
lookup's codomain. -/
theorem C7_counterexample : key "invalid" = none := by decide

/-- C7 (amended): for every string outside the recognized key-name set, the
key-name lookup `AppleTV.key` silently returns `undefined` (`none`) rather
than surfacing a `UsageError`; callers must check the result themselves. -/
theorem C7_unknownKeyName (s : String) (h : s ∉ recognizedKeyNames) :
    key s = none := by
  simp only [recognizedKeyNames, List.mem_cons, List.not_mem_nil, or_false, not_or] at h
  obtain ⟨h1, h2, h3, h4, h5, h6, h7, h8, h9, h10, h11, h12, h13, h14, h15, h16⟩ := h
  simp [key, h1, h2, h3, h4, h5, h6, h7, h8, h9, h10, h11, h12, h13, h14, h15, h16]

/-- C7 witness: the amended theorem applied at the concrete unknown name
`"invalid"`. -/
theorem C7_witness : "invalid" ∉ recognizedKeyNames ∧ key "invalid" = none :=
  ⟨by decide, C7_unknownKeyName "invalid" (by decide)⟩

/-- C8: the `AppleTV` constructor sets the device's address to
`addresses[1]` when the service record carries more than one address, and to
`addresses[0]` otherwise. -/
theorem C8_addressSelection (nm uid : String) (port : Nat) (a b : String)
    (rest : List String) :
    (appleTVInit
        { addresses := a :: b :: rest, port := port, txtName := nm,
          txtUniqueIdentifier := uid }).address = some b ∧
    (appleTVInit
        { addresses := [a], port := port, txtName := nm,
          txtUniqueIdentifier := uid }).address = some a := by
  constructor <;> simp [appleTVInit]

/-- C10: the string-to-key parser `AppleTV.key` maps each of the sixteen
documented names to its `Key` value, but has no case for `'next'` even
though `Key.Next` exists in the enum (witness: `sendKeyCommand` maps it to
usage pair `(12, 0xB5)`), and every string outside the recognized set
returns `undefined` (`none`). -/
theorem C10_keyLookup (s : String) (h : s ∉ recognizedKeyNames) :
    key s = none ∧
    key "next" = none ∧
    sendKeyCommand Key.Next = sendKeyPressAndRelease 12 0xB5 false ∧
    key "up" = some Key.Up ∧
    key "down" = some Key.Down ∧
    key "left" = some Key.Left ∧
    key "right" = some Key.Right ∧
    key "menu" = some Key.Menu ∧
    key "play" = some Key.Play ∧
    key "pause" = some Key.Pause ∧
    key "previous" = some Key.Previous ∧
    key "suspend" = some Key.Suspend ∧
    key "select" = some Key.Select ∧
    key "topmenu" = some Key.Topmenu ∧
    key "wakeup" = some Key.WakeUp ∧
    key "volumeup" = some Key.VolumeUp ∧
    key "volumedown" = some Key.VolumeDown ∧
    key "home" = some Key.Home ∧
    key "homehold" = some Key.HomeHold := by
  refine ⟨?_, by decide⟩
  simp only [recognizedKeyNames, List.mem_cons, List.not_mem_nil, or_false, not_or] at h
  obtain ⟨h1, h2, h3, h4, h5, h6, h7, h8, h9, h10, h11, h12, h13, h14, h15, h16⟩ := h
  simp [key, h1, h2, h3, h4, h5, h6, h7, h8, h9, h10, h11, h12, h13, h14, h15, h16]

/-- C10 witness: the theorem applied at the concrete unrecognized name
`"next"`. -/
theorem C10_witness :
    "next" ∉ recognizedKeyNames ∧
    (key "next" = none ∧
     key "next" = none ∧
     sendKeyCommand Key.Next = sendKeyPressAndRelease 12 0xB5 false ∧
     key "up" = some Key.Up ∧
     key "down" = some Key.Down ∧
     key "left" = some Key.Left ∧
     key "right" = some Key.Right ∧
     key "menu" = some Key.Menu ∧
     key "play" = some Key.Play ∧
     key "pause" = some Key.Pause ∧
     key "previous" = some Key.Previous ∧
     key "suspend" = some Key.Suspend ∧
     key "select" = some Key.Select ∧
     key "topmenu" = some Key.Topmenu ∧
     key "wakeup" = some Key.WakeUp ∧
     key "volumeup" = some Key.VolumeUp ∧
     key "volumedown" = some Key.VolumeDown ∧
     key "home" = some Key.Home ∧
     key "homehold" = some Key.HomeHold) :=
  ⟨by decide, C10_keyLookup "next" (by decide)⟩

/-- C9: `requestPlaybackQueue` (via `requestPlaybackQueueWithWait`, whose
`params` is the very object the caller passed) mutates the caller's options
object: it adds a `requestID` field holding the fresh UUID, and when
`artworkSize` is set it additionally adds `artworkWidth` and `artworkHeight`
copied from it and deletes `artworkSize`, so the object the caller passed in
is changed after the call. -/
theorem C9_requestPlaybackQueueMutation (opts : PlaybackQueueRequestOptions)
    (u : String) (sz : Size) (hsz : opts.artworkSize = some sz)
    (hfresh : opts.requestID ≠ some u) :
    (∀ opts2 : PlaybackQueueRequestOptions,
      (requestPlaybackQueueWithWaitParams opts2 u).requestID = some u) ∧
    (requestPlaybackQueueWithWaitParams opts u).artworkWidth = some sz.width ∧
    (requestPlaybackQueueWithWaitParams opts u).artworkHeight = some sz.height ∧
    (requestPlaybackQueueWithWaitParams opts u).artworkSize = none ∧
    requestPlaybackQueueWithWaitParams opts u ≠ opts := by
  have h1 : ∀ opts2 : PlaybackQueueRequestOptions,
      (requestPlaybackQueueWithWaitParams opts2 u).requestID = some u := by
    intro opts2
    cases ho : opts2.artworkSize <;> simp [requestPlaybackQueueWithWaitParams, ho]
  have h5 : requestPlaybackQueueWithWaitParams opts u ≠ opts := by
    simp only [requestPlaybackQueueWithWaitParams, hsz]
    intro h
    exact hfresh (by rw [← h])
  refine ⟨h1, ?_, ?_, ?_, h5⟩ <;> simp [requestPlaybackQueueWithWaitParams, hsz]

/-- C9 witness: the theorem applied to the polling timer's concrete options
object (which has `artworkSize` set and no `requestID`). -/
theorem C9_witness :
    pollRequestOptions.artworkSize = some { width := -1, height := 368 } ∧
    pollRequestOptions.requestID ≠ some "fresh-uuid" ∧
    ((∀ opts2 : PlaybackQueueRequestOptions,
        (requestPlaybackQueueWithWaitParams opts2 "fresh-uuid").requestID =
          some "fresh-uuid") ∧
      (requestPlaybackQueueWithWaitParams pollRequestOptions "fresh-uuid").artworkWidth =
        some (-1 : Int) ∧
      (requestPlaybackQueueWithWaitParams pollRequestOptions "fresh-uuid").artworkHeight =
        some (368 : Int) ∧
      (requestPlaybackQueueWithWaitParams pollRequestOptions "fresh-uuid").artworkSize =
        none ∧
      requestPlaybackQueueWithWaitParams pollRequestOptions "fresh-uuid" ≠
        pollRequestOptions) :=
  ⟨rfl, by decide,
    C9_requestPlaybackQueueMutation pollRequestOptions "fresh-uuid"
      { width := -1, height := 368 } rfl (by decide)⟩

/-- C5: for an inbound `SetStateMessage` with null payload the handler emits
exactly one `nowPlaying` event, carrying `null`, and no `supportedCommands`
or `playbackQueue` event; for a non-null payload it emits one `nowPlaying`,
`supportedCommands`, resp. `playbackQueue` event exactly when the sub-field
`nowPlayingInfo`, `supportedCommands`, resp. `playbackQueue` is populated. -/
theorem C5_setStateFanout (payload : SetStatePayload) :
    ((handleMessage { type := MessageType.SetStateMessage, payload := none }).countP
        DeviceEvent.isNowPlaying = 1 ∧
      DeviceEvent.nowPlaying none ∈
        handleMessage { type := MessageType.SetStateMessage, payload := none } ∧
      (handleMessage { type := MessageType.SetStateMessage, payload := none }).countP
        DeviceEvent.isSupportedCommands = 0 ∧
      (handleMessage { type := MessageType.SetStateMessage, payload := none }).countP
        DeviceEvent.isPlaybackQueue = 0) ∧
    (handleMessage { type := MessageType.SetStateMessage, payload := some payload }).countP
        DeviceEvent.isNowPlaying =
      (if payload.nowPlayingInfo.isSome then 1 else 0) ∧
    (handleMessage { type := MessageType.SetStateMessage, payload := some payload }).countP
        DeviceEvent.isSupportedCommands =
      (if payload.supportedCommands.isSome then 1 else 0) ∧
    (handleMessage { type := MessageType.SetStateMessage, payload := some payload }).countP
        DeviceEvent.isPlaybackQueue =
      (if payload.playbackQueue.isSome then 1 else 0) := by
  obtain ⟨npi, sc, pq⟩ := payload
  refine ⟨by decide, ?_, ?_, ?_⟩ <;>
    cases npi <;> cases sc <;> cases pq <;>
      simp [handleMessage, List.countP_cons, List.countP_nil, List.countP_append,
        DeviceEvent.isNowPlaying, DeviceEvent.isSupportedCommands,
        DeviceEvent.isPlaybackQueue]

/-- The polling-timer coupling is preserved by each listener action. -/
theorem pollHooksStep_invariant (s : PollState) (a : ListenerAction)
    (h : s.queuePollTimer = true ↔ 1 ≤ combinedListenerCount s) :
    (pollHooksStep s a).queuePollTimer = true ↔
      1 ≤ combinedListenerCount (pollHooksStep s a) := by
  obtain ⟨timer, np, sc⟩ := s
  cases a with
  | add event =>
    by_cases h1 : event = "nowPlaying"
    · cases timer <;>
        simp_all [pollHooksStep, combinedListenerCount] <;> omega
    · by_cases h2 : event = "supportedCommands"
      · cases timer <;>
          simp_all [pollHooksStep, combinedListenerCount] <;> omega
      · simpa [pollHooksStep, h1, h2, combinedListenerCount] using h
  | remove event =>
    by_cases h1 : event = "nowPlaying"
    · cases timer <;>
        simp_all [pollHooksStep, combinedListenerCount] <;>
        first
          | omega
          | (split <;> simp_all <;> omega)
    · by_cases h2 : event = "supportedCommands"
      · cases timer <;>
          simp_all [pollHooksStep, combinedListenerCount] <;>
          first
            | omega
            | (split <;> simp_all <;> omega)
      · simpa [pollHooksStep, h1, h2, combinedListenerCount] using h

/-- The polling-timer coupling holds along any run. -/
theorem pollRun_invariant_aux :
    ∀ (l : List ListenerAction) (s : PollState),
      (s.queuePollTimer = true ↔ 1 ≤ combinedListenerCount s) →
      ((l.foldl pollHooksStep s).queuePollTimer = true ↔
        1 ≤ combinedListenerCount (l.foldl pollHooksStep s))
  | [], _, h => h
  | a :: l, s, h =>
    pollRun_invariant_aux l (pollHooksStep s a) (pollHooksStep_invariant s a h)

/-- C4: after any sequence of listener registrations and removals from
construction, the polling timer (the single `setInterval` slot guarded by the
`queuePollTimer` null check) is running exactly when the combined subscriber
count for `nowPlaying` and `supportedCommands` is at least 1 — so a 0→≥1
transition leaves exactly one timer running and a ≥1→0 transition leaves
none.  Each tick with the connection open sends a
`PlaybackQueueRequestMessage` with `location = 0`, `length = 100`,
`artworkWidth = -1`, `artworkHeight = 368` and a fresh UUID `requestID`,
without waiting for a response; a tick with the connection closed sends
nothing; the interval period is 5000 ms. -/
theorem C4_pollingTimer (actions : List ListenerAction) (u : String) :
    ((pollRun actions).queuePollTimer = true ↔
      1 ≤ combinedListenerCount (pollRun actions)) ∧
    pollTick true u = some (requestPlaybackQueueWithWaitParams pollRequestOptions u, false) ∧
    (requestPlaybackQueueWithWaitParams pollRequestOptions u).location = 0 ∧
    (requestPlaybackQueueWithWaitParams pollRequestOptions u).length = 100 ∧
    (requestPlaybackQueueWithWaitParams pollRequestOptions u).artworkWidth = some (-1) ∧
    (requestPlaybackQueueWithWaitParams pollRequestOptions u).artworkHeight = some 368 ∧
    (requestPlaybackQueueWithWaitParams pollRequestOptions u).requestID = some u ∧
    pollTick false u = none ∧
    pollIntervalMs = 5000 := by
  refine ⟨pollRun_invariant_aux actions pollInitState (by decide), rfl, rfl, rfl,
    rfl, rfl, rfl, rfl, rfl⟩

/-- Once the `messageOfType` promise is settled and its listener removed,
no further event changes the state. -/
theorem messageOfTypeStep_absorb (type : MessageType) (o : Except String Msg) :
    ∀ evs : List WaiterEvent,
      evs.foldl (messageOfTypeStep type) { listening := false, outcome := some o } =
        { listening := false, outcome := some o }
  | [] => rfl
  | ev :: evs => by
    have hstep :
        messageOfTypeStep type { listening := false, outcome := some o } ev =
          { listening := false, outcome := some o } := by
      cases ev with
      | arrival m => simp [messageOfTypeStep]
      | timerFire => simp [messageOfTypeStep, Option.getD]
    rw [List.foldl_cons, hstep]
    exact messageOfTypeStep_absorb type o evs

/-- C6: a `messageOfType(type, timeout)` wait over any interleaving in which
some arrivals precede the timeout timer's firing and some follow it settles
to: the first pre-deadline message of the requested type when one exists, and
otherwise the timeout rejection — post-deadline arrivals (after the timer
removed the listener) have no effect either way.  The timer is scheduled at
`timeout * 1000` ms with default `timeout = 5`, i.e. 5000 ms. -/
theorem C6_messageOfType (type : MessageType) (pre post : List Msg) :
    (messageOfTypeRun type
        (pre.map WaiterEvent.arrival ++
          WaiterEvent.timerFire :: post.map WaiterEvent.arrival)).outcome =
      some (match pre.find? (fun m => decide (m.type = type)) with
            | some m => Except.ok m
            | none => Except.error timedOutMessage) ∧
    messageOfTypeTimerMs messageOfTypeDefaultTimeout = 5000 := by
  refine ⟨?_, rfl⟩
  induction pre with
  | nil =>
    have hstep :
        messageOfTypeStep type { listening := true, outcome := none } WaiterEvent.timerFire =
          { listening := false, outcome := some (Except.error timedOutMessage) } := by
      simp [messageOfTypeStep, Option.getD]
    simp only [messageOfTypeRun, List.map_nil, List.nil_append, List.foldl_cons, hstep,
      messageOfTypeStep_absorb, List.find?_nil]
  | cons m pre ih =>
    by_cases hm : m.type = type
    · have hstep :
          messageOfTypeStep type { listening := true, outcome := none }
              (WaiterEvent.arrival m) =
            { listening := false, outcome := some (Except.ok m) } := by
        simp [messageOfTypeStep, hm, Option.getD]
      simp only [messageOfTypeRun, List.map_cons, List.cons_append, List.foldl_cons, hstep,
        messageOfTypeStep_absorb]
      simp [List.find?_cons, hm]
    · have hstep :
          messageOfTypeStep type { listening := true, outcome := none }
              (WaiterEvent.arrival m) =
            { listening := true, outcome := none } := by
        simp [messageOfTypeStep, hm]
      have hfind :
          List.find? (fun m' => decide (m'.type = type)) (m :: pre) =
            List.find? (fun m' => decide (m'.type = type)) pre :=
        List.find?_cons_of_neg _ (by simp [hm])
      simp only [messageOfTypeRun, List.map_cons, List.cons_append, List.foldl_cons, hstep,
        hfind]
      simp only [messageOfTypeRun] at ih
      exact ih

end AppleTVNode
